import Mathlib

/-!
Verification of the MINDMAP_TRADING_BOT core against its specification.

The TypeScript sources are shallowly embedded: numbers are modelled as
exact rationals (ℚ), timestamps as milliseconds in ℚ, and optional
JavaScript fields as `Option ℚ` with explicit JS truthiness (`undefined`
and `0` are falsy).  Where the source can divide by zero (IEEE-754
semantics: `x/0 = ±Infinity`, `0/0 = NaN`, no exception), the result is
modelled by the four-point type `JSN`.
-/

/-- JS truthiness of an optional number: `undefined` and `0` are falsy. -/
def qTruthy : Option ℚ → Bool
  | none => false
  | some x => decide (x ≠ 0)

/-- The value of the JS expression `o || d` for an optional number `o`:
`undefined` and `0` fall back to the default. -/
def jsOr (o : Option ℚ) (d : ℚ) : ℚ :=
  if qTruthy o then o.getD 0 else d

/-- A JavaScript number that may be an IEEE-754 infinity or NaN.
Only the values reachable from rational inputs are represented. -/
inductive JSN where
  | nan
  | posInf
  | negInf
  | fin (q : ℚ)
deriving DecidableEq, Repr

/-- JS division `a / b`: for `b = 0` IEEE-754 yields `+Infinity`,
`-Infinity` or `NaN` according to the sign of `a` (with `b` a positive
zero); no exception is raised. -/
def jsDiv (a b : ℚ) : JSN :=
  if b = 0 then
    if 0 < a then .posInf else if a < 0 then .negInf else .nan
  else .fin (a / b)

/-- Multiplication of a JS number by the positive literal `100`
(as in `(...) * 100`): infinities and NaN are absorbing. -/
def jsMul100 : JSN → JSN
  | .nan => .nan
  | .posInf => .posInf
  | .negInf => .negInf
  | .fin q => .fin (q * 100)

/-- JS comparison `c ≤ x` where `x` may be infinite or NaN:
any comparison with NaN is false. -/
def jsGe (x : JSN) (c : ℚ) : Bool :=
  match x with
  | .nan => false
  | .posInf => true
  | .negInf => false
  | .fin q => decide (c ≤ q)

/-- `((currentPrice - entryPrice) / entryPrice) * 100` exactly as written
in `TradeWatcherService.updateTrailingStopLoss` (no zero guard). -/
def jsPriceChangePercent (entryPrice currentPrice : ℚ) : JSN :=
  jsMul100 (jsDiv (currentPrice - entryPrice) entryPrice)

/-- The guarded percentage change of `TradeWatcherService.checkSellConditions`:
`0` whenever `entryPrice ≤ 0` ("If entry price is 0 ... For now 0%."). -/
def priceChangePercentGuarded (entryPrice currentPrice : ℚ) : ℚ :=
  if 0 < entryPrice then (currentPrice - entryPrice) / entryPrice * 100 else 0

/-- `TradeHistoryEntry.status`. -/
inductive TradeStatus where
  | opened
  | closed
  | failed
deriving DecidableEq, Repr

/-- `TradeHistoryEntry.sellConditions` of TradeHistoryService. -/
structure SellConditions where
  takeProfitPercentage : Option ℚ := none
  stopLossPercentage : Option ℚ := none
  trailingStopPercentage : Option ℚ := none
  trailingStopActivated : Bool := false
  maxHoldTimeMinutes : Option ℚ := none
  stepLevel : Option ℚ := none
  nextTargetPrice : Option ℚ := none
  currStopPrice : Option ℚ := none
deriving DecidableEq, Repr

/-- `TradeHistoryEntry` of TradeHistoryService (dates as epoch
milliseconds, optional numeric fields as `Option ℚ`). -/
structure TradeHistoryEntry where
  id : String
  agentId : String
  tokenMint : String
  status : TradeStatus
  openedAt : ℚ
  closedAt : Option ℚ := none
  entryPrice : ℚ
  entryAmount : ℚ
  entryValue : ℚ
  exitPrice : Option ℚ := none
  exitAmount : Option ℚ := none
  exitValue : Option ℚ := none
  sellTransactionId : Option String := none
  sellReason : Option String := none
  realizedPnL : Option ℚ := none
  realizedPnLPercentage : Option JSN := none
  highestPrice : Option ℚ := none
  lowestPrice : Option ℚ := none
  currentPrice : Option ℚ := none
  lastPriceUpdate : Option ℚ := none
  sellConditions : SellConditions
  createdAt : ℚ
  updatedAt : ℚ
deriving DecidableEq, Repr

/-- `TradeWatcherService.updateTrailingStopLoss` (stepped ratchet mode).
Returns the mutated trade together with the `activated` and `updated`
flags of the source's return value. -/
def updateTrailingStopLoss (trade : TradeHistoryEntry) (currentPrice : ℚ) :
    TradeHistoryEntry × Bool × Bool :=
  let c := trade.sellConditions
  if qTruthy c.takeProfitPercentage && qTruthy c.trailingStopPercentage then
    let highestUpd : Bool :=
      !(qTruthy trade.highestPrice) || decide (trade.highestPrice.getD 0 < currentPrice)
    let trade1 :=
      if highestUpd then { trade with highestPrice := some currentPrice } else trade
    let tpPerc := c.takeProfitPercentage.getD 0 / 100
    let trailPerc := c.trailingStopPercentage.getD 0 / 100
    if !c.trailingStopActivated then
      let priceChangePercent := jsPriceChangePercent trade.entryPrice currentPrice
      if jsGe priceChangePercent (c.takeProfitPercentage.getD 0) then
        let c2 := { c with
          trailingStopActivated := true
          stepLevel := some 1
          currStopPrice := some (currentPrice * (1 - trailPerc))
          nextTargetPrice := some (currentPrice * (1 + tpPerc)) }
        ({ trade1 with sellConditions := c2 }, true, true)
      else
        (trade1, false, highestUpd)
    else
      if qTruthy c.nextTargetPrice then
        if c.nextTargetPrice.getD 0 ≤ currentPrice then
          let oldLevel := if qTruthy c.stepLevel then c.stepLevel.getD 0 else 1
          let c2 := { c with
            stepLevel := some (oldLevel + 1)
            currStopPrice := some (currentPrice * (1 - trailPerc))
            nextTargetPrice := some (currentPrice * (1 + tpPerc)) }
          ({ trade1 with sellConditions := c2 }, true, true)
        else
          (trade1, true, highestUpd)
      else
        (trade1, true, highestUpd)
  else
    (trade, false, false)

/-- The reason tags produced by `TradeWatcherService.checkSellConditions`. -/
inductive SellTrigger where
  | maxHoldTime
  | stopLoss
  | takeProfit
  | steppedStop
  | trailingStop
deriving DecidableEq, Repr

/-- `TradeWatcherService.checkSellConditions`: first matching condition
wins, in source order (max hold, stop loss, plain take profit, stepped
stop, legacy continuous trailing). -/
def checkSellConditions (trade : TradeHistoryEntry) (currentPrice : ℚ) (now : ℚ) :
    Option SellTrigger :=
  let c := trade.sellConditions
  let priceChangePercent := priceChangePercentGuarded trade.entryPrice currentPrice
  let holdTimeMinutes := (now - trade.openedAt) / 60000
  if qTruthy c.maxHoldTimeMinutes && decide (c.maxHoldTimeMinutes.getD 0 ≤ holdTimeMinutes) then
    some .maxHoldTime
  else if qTruthy c.stopLossPercentage &&
      decide (priceChangePercent ≤ -(c.stopLossPercentage.getD 0)) then
    some .stopLoss
  else if qTruthy c.takeProfitPercentage && !(qTruthy c.trailingStopPercentage) &&
      decide (c.takeProfitPercentage.getD 0 ≤ priceChangePercent) then
    some .takeProfit
  else if c.trailingStopActivated && qTruthy c.currStopPrice then
    if currentPrice ≤ c.currStopPrice.getD 0 then some .steppedStop else none
  else if qTruthy c.trailingStopPercentage && !(qTruthy c.takeProfitPercentage) &&
      qTruthy trade.highestPrice then
    let hp := trade.highestPrice.getD 0
    if (currentPrice - hp) / hp * 100 ≤ -(c.trailingStopPercentage.getD 0) then
      some .trailingStop
    else none
  else none

/-- Outcome of one `TradeWatcherService.evaluateTrade` call on a single
open trade.  The sell paths are explicit constructors so that which
branch ran (and with which exit price) is part of the result. -/
inductive EvalAction where
  | sellMaxHold (exitPrice : ℚ)
  | forceClosePricingError
  | skip
  | updated (t : TradeHistoryEntry) (sellCheck : Option SellTrigger)
deriving DecidableEq, Repr

/-- `TradeWatcherService.evaluateTrade`: the max-hold check runs before
the price fetch; a missing price either force-closes (persistent pricing
error) or skips; otherwise the trade is updated (current price, extrema,
trailing-stop state) and the remaining sell conditions are checked. -/
def evaluateTrade (trade : TradeHistoryEntry) (now : ℚ)
    (cachedPrice : Option ℚ) (hasError : Bool) : EvalAction :=
  let holdTimeMinutes := (now - trade.openedAt) / 60000
  if qTruthy trade.sellConditions.maxHoldTimeMinutes &&
      decide (trade.sellConditions.maxHoldTimeMinutes.getD 0 ≤ holdTimeMinutes) then
    .sellMaxHold (jsOr cachedPrice 0)
  else
    match cachedPrice with
    | none => if hasError then .forceClosePricingError else .skip
    | some currentPrice =>
      let t1 := { trade with currentPrice := some currentPrice, lastPriceUpdate := some now }
      let t2 :=
        if !(qTruthy t1.highestPrice) || decide (t1.highestPrice.getD 0 < currentPrice) then
          { t1 with highestPrice := some currentPrice }
        else t1
      let t3 :=
        if !(qTruthy t2.lowestPrice) || decide (currentPrice < t2.lowestPrice.getD 0) then
          { t2 with lowestPrice := some currentPrice }
        else t2
      let t4 := (updateTrailingStopLoss t3 currentPrice).1
      .updated t4 (checkSellConditions t4 currentPrice now)

example : jsDiv 1 0 = .posInf := by decide
example : jsGe (jsPriceChangePercent 0 1) 50 = true := by
  norm_num [jsPriceChangePercent, jsMul100, jsDiv, jsGe]
example : priceChangePercentGuarded 0 7 = 0 := by decide

/-! ## TradeHistoryService: the Redis-backed position store

Redis sets are modelled as duplicate-free lists of ids, the trade
key space as an association list.  The 90-day TTLs on these keys do not
interact with any claim and are left out of the store state. -/

/-- Redis `SADD`: add a member to a set (no duplicates). -/
def setAdd (s : List String) (v : String) : List String :=
  if v ∈ s then s else v :: s

/-- Redis `SREM`: remove a member from a set. -/
def setRem (s : List String) (v : String) : List String :=
  s.filter (fun x => x ≠ v)

/-- Add a pair to a pair-set (the agent/token secondary indices). -/
def pairAdd (s : List (String × String)) (p : String × String) : List (String × String) :=
  if p ∈ s then s else p :: s

/-- The state owned by `TradeHistoryService`: trade records plus the
agent index, token index and the open/closed status sets. -/
structure TradeHistoryStore where
  trades : List (String × TradeHistoryEntry)
  agentIndex : List (String × String)
  tokenIndex : List (String × String)
  openTrades : List String
  closedTrades : List String
deriving DecidableEq, Repr

/-- `TradeHistoryService.getTrade`. -/
def getTrade (store : TradeHistoryStore) (tradeId : String) : Option TradeHistoryEntry :=
  store.trades.lookup tradeId

/-- `TradeHistoryService.storeTrade`: write the record, add it to the
agent and token indices, and reconcile the open/closed status sets
(`open` adds to the open set and removes from the closed set; `closed`
the converse; other statuses leave the sets alone). -/
def storeTrade (store : TradeHistoryStore) (trade : TradeHistoryEntry) : TradeHistoryStore :=
  let trades := (trade.id, trade) :: store.trades.filter (fun p => p.1 ≠ trade.id)
  let agentIndex := pairAdd store.agentIndex (trade.agentId, trade.id)
  let tokenIndex := pairAdd store.tokenIndex (trade.tokenMint, trade.id)
  match trade.status with
  | .opened =>
    { trades, agentIndex, tokenIndex
      openTrades := setAdd store.openTrades trade.id
      closedTrades := setRem store.closedTrades trade.id }
  | .closed =>
    { trades, agentIndex, tokenIndex
      openTrades := setRem store.openTrades trade.id
      closedTrades := setAdd store.closedTrades trade.id }
  | .failed =>
    { trades, agentIndex, tokenIndex
      openTrades := store.openTrades
      closedTrades := store.closedTrades }

/-- `TradeHistoryService.closeTrade`: `null` when the id is unknown
(store untouched); otherwise sets `status = closed`, `closedAt = now`,
the exit fields, `realizedPnL = exitValue - entryValue` and
`realizedPnLPercentage = realizedPnL / entryValue * 100` (a JS division,
hence `JSN`), then persists through `storeTrade`. -/
def closeTrade (store : TradeHistoryStore) (tradeId : String)
    (exitPrice exitAmount : ℚ) (sellTransactionId sellReason : Option String)
    (now : ℚ) : Option TradeHistoryEntry × TradeHistoryStore :=
  match getTrade store tradeId with
  | none => (none, store)
  | some trade =>
    let exitValue := exitPrice * exitAmount
    let realizedPnL := exitValue - trade.entryValue
    let t1 : TradeHistoryEntry := { trade with
      status := .closed
      closedAt := some now
      exitPrice := some exitPrice
      exitAmount := some exitAmount
      exitValue := some exitValue
      sellTransactionId :=
        match sellTransactionId with
        | some s => some s
        | none => trade.sellTransactionId
      sellReason :=
        match sellReason with
        | some s => some s
        | none => trade.sellReason
      realizedPnL := some realizedPnL
      realizedPnLPercentage := some (jsMul100 (jsDiv realizedPnL trade.entryValue))
      updatedAt := now }
    (some t1, storeTrade store t1)

/-- The entry mutation performed by `TradeHistoryService.updateTradePrice`
on an open position: sets `currentPrice`/`lastPriceUpdate`/`updatedAt`
and extends the extrema with the source's falsy-or-compare test
(`!trade.highestPrice || currentPrice > trade.highestPrice`). -/
def applyPriceUpdate (trade : TradeHistoryEntry) (currentPrice : ℚ) (now : ℚ) :
    TradeHistoryEntry :=
  let t1 := { trade with currentPrice := some currentPrice, lastPriceUpdate := some now }
  let t2 :=
    if !(qTruthy t1.highestPrice) || decide (t1.highestPrice.getD 0 < currentPrice) then
      { t1 with highestPrice := some currentPrice }
    else t1
  let t3 :=
    if !(qTruthy t2.lowestPrice) || decide (currentPrice < t2.lowestPrice.getD 0) then
      { t2 with lowestPrice := some currentPrice }
    else t2
  { t3 with updatedAt := now }

/-- `TradeHistoryService.updateTradePrice`: no-op unless the position
exists and is open; otherwise applies `applyPriceUpdate` and persists. -/
def updateTradePrice (store : TradeHistoryStore) (tradeId : String)
    (currentPrice : ℚ) (now : ℚ) : TradeHistoryStore :=
  match getTrade store tradeId with
  | none => store
  | some trade =>
    if trade.status ≠ .opened then store
    else storeTrade store (applyPriceUpdate trade currentPrice now)

/-! ## MLPredictionService -/

/-- Raw classification response of the external prediction endpoint
(`PredictionResult` in src/types): optional fields may be absent. -/
structure RawPredictionResult where
  taskType : String
  classLabel : Option String
  probability : Option ℚ
deriving DecidableEq, Repr

/-- Prediction outcome with the approval decision applied
(`PredictionResult & \x7b approved, confidence \x7d`). -/
structure PredictionOutcome where
  taskType : String
  classLabel : Option String
  probability : Option ℚ
  confidence : ℚ
  approved : Bool
deriving DecidableEq, Repr

/-- `MLPredictionService.predict`.  `none` stands for the catch branch
(network failure of the prediction call): it returns the fixed rejection
record.  Otherwise `confidence = (result.probability || 0) * 100` and
`approved = (classLabel == 'good' and confidence >= 65)`. -/
def MLPredictionService_predict (response : Option RawPredictionResult) : PredictionOutcome :=
  match response with
  | none =>
    { taskType := "classification", classLabel := some "unknown"
      probability := some 0, confidence := 0, approved := false }
  | some result =>
    let confidence := jsOr result.probability 0 * 100
    let approved := (result.classLabel == some "good") && decide (65 ≤ confidence)
    { taskType := result.taskType, classLabel := result.classLabel
      probability := result.probability, confidence, approved }

/-! ## RedisCacheService: retry bookkeeping and the pending-trade lock

Keys with TTL are modelled as values carrying their absolute expiry
time; a Redis `GET`/`SISMEMBER` sees the key only while `now < expiry`. -/

/-- `RedisCacheService.RETRY_TTL` (seconds): 1 hour. -/
def RETRY_TTL : ℚ := 3600

/-- `RedisCacheService.DEFAULT_TTL` (seconds): 30 minutes. -/
def DEFAULT_TTL : ℚ := 1800

/-- `RedisCacheService.LOCK_TTL` (seconds). -/
def LOCK_TTL : ℚ := 60

/-- `BotCoreEngine`'s `MAX_PREDICTION_RETRIES`. -/
def MAX_PREDICTION_RETRIES : ℕ := 3

/-- Whether a TTL-carrying entry is still live at `now`. -/
def ttlLive (now : ℚ) (expiry : Option ℚ) : Bool :=
  match expiry with
  | none => false
  | some e => decide (now < e)

/-- The cache entries of one token inside `RedisCacheService`:
membership of `bot:processed_tokens`, the `bot:prediction_retry:` counter
and membership of the `bot:prediction_failed` set, each with expiry. -/
structure TokenCacheState where
  processedUntil : Option ℚ := none
  predictionRetry : Option (ℕ × ℚ) := none
  predictionFailedUntil : Option ℚ := none
deriving DecidableEq, Repr

/-- `RedisCacheService.isTokenProcessed`. -/
def isTokenProcessed (s : TokenCacheState) (now : ℚ) : Bool :=
  ttlLive now s.processedUntil

/-- `RedisCacheService.markTokenProcessed` (30-minute TTL). -/
def markTokenProcessed (s : TokenCacheState) (now : ℚ) : TokenCacheState :=
  { s with processedUntil := some (now + DEFAULT_TTL) }

/-- `RedisCacheService.getPredictionRetryCount`: `0` when the key is
absent or expired. -/
def getPredictionRetryCount (s : TokenCacheState) (now : ℚ) : ℕ :=
  match s.predictionRetry with
  | some (n, e) => if now < e then n else 0
  | none => 0

/-- `RedisCacheService.incrementPredictionRetryCount`: read-add-one-write
with a fresh 1-hour TTL; returns the new count. -/
def incrementPredictionRetryCount (s : TokenCacheState) (now : ℚ) : ℕ × TokenCacheState :=
  let newCount := getPredictionRetryCount s now + 1
  (newCount, { s with predictionRetry := some (newCount, now + RETRY_TTL) })

/-- `RedisCacheService.markPredictionFailed`: add the token to the
`bot:prediction_failed` set with a 1-hour TTL. -/
def markPredictionFailed (s : TokenCacheState) (now : ℚ) : TokenCacheState :=
  { s with predictionFailedUntil := some (now + RETRY_TTL) }

/-- Membership of `bot:prediction_failed` as seen by
`cacheService.isInSet('bot:prediction_failed', tokenMint)`. -/
def isPredictionFailed (s : TokenCacheState) (now : ℚ) : Bool :=
  ttlLive now s.predictionFailedUntil

/-- Pending-trade locks: token → absolute expiry of the Redis key
written by `SET key '1' NX EX 60`. -/
def LockState : Type := List (String × ℚ)

/-- `RedisCacheService.acquirePendingTradeLock`: Redis `SET NX EX`
succeeds exactly when no unexpired key exists; on success the key
expires `LOCK_TTL` seconds later. -/
def acquirePendingTradeLock (locks : LockState) (tokenMint : String) (now : ℚ) :
    Bool × LockState :=
  match locks.lookup tokenMint with
  | some expiry =>
    if now < expiry then (false, locks)
    else (true, (tokenMint, now + LOCK_TTL) :: locks.filter (fun p => p.1 ≠ tokenMint))
  | none => (true, (tokenMint, now + LOCK_TTL) :: locks)

/-- `RedisCacheService.releasePendingTradeLock`: delete the key. -/
def releasePendingTradeLock (locks : LockState) (tokenMint : String) : LockState :=
  locks.filter (fun p => p.1 ≠ tokenMint)

/-! ## TradeExecutor (the active variant, wired to AgentLedgerTools)

`execute` is modelled together with the list of externally visible
effects it performs, in order, so that statements about which calls are
or are not made are statements about the result. -/

/-- Externally visible calls `TradeExecutor.execute` could make. -/
inductive ExecEffect where
  | acquireLock (tokenMint : String)
  | performSwap (tokenMint : String) (action : String)
  | markProcessed (tokenMint : String)
  | deleteMindmap (tokenMint : String)
deriving DecidableEq, Repr

/-- `TradeResult` (src/types). -/
structure TradeResult where
  success : Bool
  tokenMint : String
deriving DecidableEq, Repr

/-- `TradeExecutor.execute`: the duplicate check is commented out in the
source ("Duplicate check handled by BotCoreEngine"), so the method goes
straight to `ledgerTools.performSwap`; on swap success it marks the
token processed and deletes the mindmap cache.  `swapSuccess` abstracts
the external swap backend's reply. -/
def TradeExecutor_execute (tokenMint : String) (swapSuccess : Bool) :
    TradeResult × List ExecEffect :=
  if swapSuccess then
    ({ success := true, tokenMint },
     [.performSwap tokenMint "buy", .markProcessed tokenMint, .deleteMindmap tokenMint])
  else
    ({ success := false, tokenMint }, [.performSwap tokenMint "buy"])

/-! ## MindmapFilterEngine (the async variant with signals) -/

/-- `KOLConnection` (src/types); `lastTradeTime` in epoch milliseconds. -/
structure KOLConnection where
  kolWallet : String
  tradeCount : ℚ
  totalVolume : ℚ
  lastTradeTime : ℚ
  influenceScore : ℚ
  tradeTypes : List String
deriving DecidableEq, Repr

/-- `NetworkMetrics` (src/types). -/
structure NetworkMetrics where
  centrality : ℚ
  clustering : ℚ
  totalTrades : ℚ
deriving DecidableEq, Repr

/-- `MindmapData` (src/types); `kolConnections` as an association list
in object-iteration order. -/
structure MindmapData where
  tokenMint : String
  kolConnections : List (String × KOLConnection)
  networkMetrics : NetworkMetrics
deriving DecidableEq, Repr

/-- `FilterCriteria` with the advanced optional fields used by
`MindmapFilterEngine` (absent fields behave like JS `undefined`). -/
structure FilterCriteria where
  minTradeVolume : ℚ
  minConnectedKOLs : ℚ
  minInfluenceScore : ℚ
  minTotalTrades : ℚ
  minMarketCapUsd : Option ℚ := none
  minLiquidityUsd : Option ℚ := none
  minViralVelocity : Option ℚ := none
  requireSmartMoney : Bool := false
  minConsensusScore : Option ℚ := none
deriving DecidableEq, Repr

/-- The JS test `o > 0` on an optional number (`undefined > 0` is false). -/
def jsGtZero (o : Option ℚ) : Bool :=
  match o with
  | none => false
  | some x => decide (0 < x)

/-- `MindmapFilterEngine.NATIVE_SOL_ADDRESS`. -/
def NATIVE_SOL_ADDRESS : String := "So11111111111111111111111111111111111111112"

/-- `MindmapFilterEngine.calculateTotalVolume`. -/
def calculateTotalVolume (data : MindmapData) : ℚ :=
  (data.kolConnections.map (fun p => p.2.totalVolume)).sum

/-- `MindmapFilterEngine.countConnectedKOLs`. -/
def countConnectedKOLs (data : MindmapData) : ℕ :=
  data.kolConnections.length

/-- `MindmapFilterEngine.calculateAvgInfluenceScore` (0 with no KOLs). -/
def calculateAvgInfluenceScore (data : MindmapData) : ℚ :=
  if data.kolConnections.length = 0 then 0
  else (data.kolConnections.map (fun p => p.2.influenceScore)).sum / data.kolConnections.length

/-- `MindmapFilterEngine.calculateViralVelocity`: number of KOLs whose
last trade is strictly within the past minute. -/
def calculateViralVelocity (data : MindmapData) (now : ℚ) : ℕ :=
  (data.kolConnections.filter (fun p => decide (now - 60000 < p.2.lastTradeTime))).length

/-- `MindmapFilterEngine.calculateWeightedVolume`. -/
def calculateWeightedVolume (data : MindmapData) : ℚ :=
  (data.kolConnections.map (fun p => p.2.totalVolume * (p.2.influenceScore / 100))).sum

/-- `MindmapFilterEngine.calculateConsensus` (0 with no KOLs). -/
def calculateConsensus (data : MindmapData) : ℚ :=
  let totalKOLs := data.kolConnections.length
  let buyingKOLs := (data.kolConnections.filter (fun p => p.2.tradeTypes.contains "buy")).length
  if totalKOLs = 0 then 0 else (buyingKOLs : ℚ) / totalKOLs * 100

/-- Rejection reasons of `MindmapFilterEngine.evaluate`, tagged by the
branch of the source that produced them. -/
inductive FilterReason where
  | nativeSol
  | lowVolume
  | lowKOLs
  | lowTrades
  | lowInfluence
  | onchainFail
deriving DecidableEq, Repr

/-- `FilterResult` restricted to the decision-relevant parts. -/
structure FilterRes where
  passed : Bool
  reason : Option FilterReason
  signals : List String
deriving DecidableEq, Repr

/-- The signal block of `MindmapFilterEngine.evaluate`: VIRAL_SPIKE,
SMART_MONEY and HIGH_CONSENSUS, pushed in source order. -/
def computeSignals (criteria : FilterCriteria) (data : MindmapData) (now : ℚ) :
    List String :=
  (if qTruthy criteria.minViralVelocity &&
      decide (criteria.minViralVelocity.getD 0 ≤ (calculateViralVelocity data now : ℚ)) then
    ["VIRAL_SPIKE"] else []) ++
  (if criteria.requireSmartMoney &&
      decide (calculateTotalVolume data * (6 / 10) < calculateWeightedVolume data) then
    ["SMART_MONEY"] else []) ++
  (if qTruthy criteria.minConsensusScore &&
      decide (criteria.minConsensusScore.getD 0 ≤ calculateConsensus data) &&
      decide (3 ≤ countConnectedKOLs data) then
    ["HIGH_CONSENSUS"] else [])

/-- `MindmapFilterEngine.evaluate`.  `now` is the wall clock used by the
viral-velocity window.  The optional on-chain market-cap/liquidity
verification (lines 156-219 of the source) calls external oracles; its
outcome is abstracted by `onchainOk`, and the branch is entered exactly
under the source's condition `minMarketCapUsd > 0 || minLiquidityUsd > 0`. -/
def MindmapFilterEngine_evaluate (criteria : FilterCriteria) (data : MindmapData)
    (now : ℚ) (onchainOk : Bool) : FilterRes :=
  if data.tokenMint = NATIVE_SOL_ADDRESS then
    { passed := false, reason := some .nativeSol, signals := [] }
  else
    let totalVolume := calculateTotalVolume data
    let connectedKOLs := countConnectedKOLs data
    let avgInfluenceScore := calculateAvgInfluenceScore data
    let totalTrades := data.networkMetrics.totalTrades
    let signals : List String := computeSignals criteria data now
    let hasStrongSignal := !signals.isEmpty
    if !hasStrongSignal && decide (totalVolume < criteria.minTradeVolume) then
      { passed := false, reason := some .lowVolume, signals }
    else if !hasStrongSignal && decide ((connectedKOLs : ℚ) < criteria.minConnectedKOLs) then
      { passed := false, reason := some .lowKOLs, signals }
    else if !hasStrongSignal && decide (totalTrades < criteria.minTotalTrades) then
      { passed := false, reason := some .lowTrades, signals }
    else if decide (avgInfluenceScore < criteria.minInfluenceScore) then
      { passed := false, reason := some .lowInfluence, signals }
    else if jsGtZero criteria.minMarketCapUsd || jsGtZero criteria.minLiquidityUsd then
      if onchainOk then { passed := true, reason := none, signals }
      else { passed := false, reason := some .onchainFail, signals }
    else
      { passed := true, reason := none, signals }

/-! ## BotCoreEngine: processToken / evaluateAndExecute for one token -/

/-- Result of one `BotCoreEngine.processToken` run on a token, together
with whether the prediction service was invoked and whether a trade was
executed successfully. -/
structure ProcessOutcome where
  state : TokenCacheState
  predictionCalled : Bool
  tradeExecuted : Bool
deriving DecidableEq, Repr

/-- `BotCoreEngine.processToken` followed by `evaluateAndExecute`:
skip if the token is processed, skip if it is in `bot:prediction_failed`,
skip without mindmap data; then run the filter; on pass, call the
prediction service; on non-approval increment the retry counter and mark
the token permanently failed when the new count reaches
`MAX_PREDICTION_RETRIES`; on approval execute the trade (which marks
the token processed on success, inside `TradeExecutor`). -/
def processToken (s : TokenCacheState) (now : ℚ) (hasMindmapData : Bool)
    (filterPassed : Bool) (approved : Bool) (execSuccess : Bool) : ProcessOutcome :=
  if isTokenProcessed s now then ⟨s, false, false⟩
  else if isPredictionFailed s now then ⟨s, false, false⟩
  else if !hasMindmapData then ⟨s, false, false⟩
  else if !filterPassed then ⟨s, false, false⟩
  else if !approved then
    let (newRetryCount, s1) := incrementPredictionRetryCount s now
    if MAX_PREDICTION_RETRIES ≤ newRetryCount then
      ⟨markPredictionFailed s1 now, true, false⟩
    else
      ⟨s1, true, false⟩
  else
    if execSuccess then ⟨markTokenProcessed s now, true, true⟩
    else ⟨s, true, false⟩

/-! ## Concrete instances used by the scenario claims -/

/-- The position of scenario S1: entry 100, take profit 50 %, trailing
stop 10 %, stepped trailing not yet activated. -/
def c1trade0 : TradeHistoryEntry :=
  { id := "t1", agentId := "agent1", tokenMint := "mintA", status := .opened
    openedAt := 0, entryPrice := 100, entryAmount := 100, entryValue := 10000
    sellConditions :=
      { takeProfitPercentage := some 50, trailingStopPercentage := some 10 }
    createdAt := 0, updatedAt := 0 }

/-- S1 state after the price update at 140. -/
def c1t1 : TradeHistoryEntry := (updateTrailingStopLoss c1trade0 140).1

/-- S1 state after the price update at 150. -/
def c1t2 : TradeHistoryEntry := (updateTrailingStopLoss c1t1 150).1

/-- S1 state after the price update at 200. -/
def c1t3 : TradeHistoryEntry := (updateTrailingStopLoss c1t2 200).1

/-- S1 state after the price update at 230. -/
def c1t4 : TradeHistoryEntry := (updateTrailingStopLoss c1t3 230).1

/-- S1 state after the final price update at 200. -/
def c1t5 : TradeHistoryEntry := (updateTrailingStopLoss c1t4 200).1

/-- A position with take profit, trailing stop AND a stop loss, in the
activated stepped state reached after the 150 tick of S1.  Used to show
that the stop-loss branch pre-empts the stepped-stop reason. -/
def c1badTrade : TradeHistoryEntry :=
  { id := "t2", agentId := "agent1", tokenMint := "mintA", status := .opened
    openedAt := 0, entryPrice := 100, entryAmount := 100, entryValue := 10000
    sellConditions :=
      { takeProfitPercentage := some 50, stopLossPercentage := some 20
        trailingStopPercentage := some 10, trailingStopActivated := true
        stepLevel := some 1, nextTargetPrice := some 225, currStopPrice := some 135 }
    createdAt := 0, updatedAt := 0 }

/-- A position recorded with `entryPrice = 0` (the data-error case of
claim C3), stepped trailing configured but not yet activated. -/
def c3trade : TradeHistoryEntry :=
  { id := "t3", agentId := "agent1", tokenMint := "mintB", status := .opened
    openedAt := 0, entryPrice := 0, entryAmount := 5, entryValue := 0
    sellConditions :=
      { takeProfitPercentage := some 50, trailingStopPercentage := some 10 }
    createdAt := 0, updatedAt := 0 }

/-- An open position whose `lowestPrice` is the falsy number 0. -/
def c9trade : TradeHistoryEntry :=
  { id := "t9", agentId := "agent1", tokenMint := "mintC", status := .opened
    openedAt := 0, entryPrice := 0, entryAmount := 5, entryValue := 0
    highestPrice := some 0, lowestPrice := some 0, currentPrice := some 0
    sellConditions := {}, createdAt := 0, updatedAt := 0 }

/-- A store holding only `c9trade`, open. -/
def c9store : TradeHistoryStore :=
  { trades := [("t9", c9trade)]
    agentIndex := [("agent1", "t9")]
    tokenIndex := [("mintC", "t9")]
    openTrades := ["t9"]
    closedTrades := [] }

/-- An open position used by the close-trade witness. -/
def c8trade : TradeHistoryEntry :=
  { id := "t8", agentId := "agent1", tokenMint := "mintD", status := .opened
    openedAt := 0, entryPrice := 2, entryAmount := 10, entryValue := 20
    sellConditions := {}, createdAt := 0, updatedAt := 0 }

/-- A store holding only `c8trade`, open. -/
def c8store : TradeHistoryStore :=
  { trades := [("t8", c8trade)]
    agentIndex := [("agent1", "t8")]
    tokenIndex := [("mintD", "t8")]
    openTrades := ["t8"]
    closedTrades := [] }

/-- Filter criteria of scenario S4 (viral override): the three base
thresholds of the claim plus a configured viral-velocity signal
threshold of 5, everything else left unset. -/
def c7criteria : FilterCriteria :=
  { minTradeVolume := 10000, minConnectedKOLs := 5
    minInfluenceScore := 50, minTotalTrades := 5
    minViralVelocity := some 5 }

/-- One S4 actor: last trade at `now`, influence 60, volume 100. -/
def c7kol (w : String) (now : ℚ) : KOLConnection :=
  { kolWallet := w, tradeCount := 1, totalVolume := 100
    lastTradeTime := now, influenceScore := 60, tradeTypes := ["buy"] }

/-- The S4 snapshot: 5 such actors (total volume 500 < 10000). -/
def c7data (now : ℚ) : MindmapData :=
  { tokenMint := "mintS4"
    kolConnections :=
      [("k1", c7kol "k1" now), ("k2", c7kol "k2" now), ("k3", c7kol "k3" now),
       ("k4", c7kol "k4" now), ("k5", c7kol "k5" now)]
    networkMetrics := { centrality := 0, clustering := 0, totalTrades := 10 } }

/-! ## Helper lemmas -/

/-- With a nonzero entry price the unguarded JS percentage is finite. -/
theorem jsPriceChangePercent_of_ne (e p : ℚ) (h : e ≠ 0) :
    jsPriceChangePercent e p = .fin ((p - e) / e * 100) := by
  simp [jsPriceChangePercent, jsDiv, h, jsMul100]

/-- A successful association-list lookup exhibits a member. -/
theorem mem_of_lookup_eq_some {β : Type} {l : List (String × β)} {k : String} {v : β}
    (h : l.lookup k = some v) : (k, v) ∈ l := by
  induction l with
  | nil => simp [List.lookup] at h
  | cons a t ih =>
    rw [List.lookup] at h
    by_cases hk : k = a.1
    · subst hk
      simp at h
      subst h
      exact List.mem_cons_self _ _
    · have hb : (k == a.1) = false := by simp [hk]
      rw [hb] at h
      exact List.mem_cons_of_mem _ (ih h)

/-! ## C6: prediction gate -/

/-- C6: for every prediction response the gate computes
`confidence = probability * 100` (with the JS `|| 0` default) and
approves exactly when `classLabel = 'good'` and `confidence ≥ 65`
(so 64.999 blocks and exactly 65 approves); a failed prediction call
(the `none` case) yields `approved = false`. -/
theorem c6_prediction_gate :
    (∀ result : RawPredictionResult,
      (MLPredictionService_predict (some result)).confidence = jsOr result.probability 0 * 100 ∧
      ((MLPredictionService_predict (some result)).approved = true ↔
        (result.classLabel = some "good" ∧
          65 ≤ (MLPredictionService_predict (some result)).confidence))) ∧
    (MLPredictionService_predict none).approved = false ∧
    (MLPredictionService_predict
      (some { taskType := "classification", classLabel := some "good",
              probability := some (64999 / 100000) })).approved = false ∧
    (MLPredictionService_predict
      (some { taskType := "classification", classLabel := some "good",
              probability := some (65 / 100) })).approved = true := by
  refine ⟨fun result => ⟨rfl, ?_⟩, rfl, ?_, ?_⟩
  · simp [MLPredictionService_predict]
  · norm_num [MLPredictionService_predict, jsOr, qTruthy]
  · norm_num [MLPredictionService_predict, jsOr, qTruthy]

/-! ## C4: max-hold short circuit -/

/-- C4: whenever `maxHoldTimeMinutes` is set (nonzero) and
`now - openedAt ≥ maxHoldTimeMinutes` (converting milliseconds to
minutes, equality included), `evaluateTrade` queues the max-hold sell
with exit price `cachedPrice || 0`, for every cached-price state and
every price-feed error state: a missing or erroring price feed can
neither delay nor prevent the time-based exit. -/
theorem c4_max_hold_short_circuit (trade : TradeHistoryEntry) (now : ℚ)
    (cachedPrice : Option ℚ) (hasError : Bool) (mh : ℚ)
    (hset : trade.sellConditions.maxHoldTimeMinutes = some mh) (hmh : mh ≠ 0)
    (helapsed : mh ≤ (now - trade.openedAt) / 60000) :
    evaluateTrade trade now cachedPrice hasError = .sellMaxHold (jsOr cachedPrice 0) := by
  unfold evaluateTrade
  simp [hset, qTruthy, hmh, helapsed]

/-- Witness for C4: a position opened at 0 with a 60-minute max hold,
evaluated 60 minutes later with no price available and the feed in
error state, still sells with exit price 0. -/
theorem c4_witness :
    evaluateTrade
      { id := "t4", agentId := "a", tokenMint := "m", status := .opened
        openedAt := 0, entryPrice := 1, entryAmount := 1, entryValue := 1
        sellConditions := { maxHoldTimeMinutes := some 60 }
        createdAt := 0, updatedAt := 0 }
      3600000 none true = .sellMaxHold 0 := by
  have h := c4_max_hold_short_circuit
    { id := "t4", agentId := "a", tokenMint := "m", status := .opened
      openedAt := 0, entryPrice := 1, entryAmount := 1, entryValue := 1
      sellConditions := { maxHoldTimeMinutes := some 60 }
      createdAt := 0, updatedAt := 0 }
    3600000 none true 60 rfl (by norm_num) (by norm_num)
  simpa [jsOr, qTruthy] using h

/-! ## C2: buy-path locking -/

/-- C2 counterexample: `TradeExecutor.execute` makes the external swap
call for a buy without ever acquiring the per-token pending-trade lock,
so the buy operation does not "first acquire a per-token distributed
lock", and failure to hold the lock cannot produce a Duplicate result. -/
theorem c2_counterexample :
    ExecEffect.performSwap "tokenX" "buy" ∈ (TradeExecutor_execute "tokenX" true).2 ∧
    ExecEffect.acquireLock "tokenX" ∉ (TradeExecutor_execute "tokenX" true).2 ∧
    (TradeExecutor_execute "tokenX" true).2.head? ≠ some (ExecEffect.acquireLock "tokenX") := by
  refine ⟨?_, ?_, ?_⟩ <;> simp [TradeExecutor_execute]

/-- C2 amended: the cache layer does provide `acquirePendingTradeLock`,
a per-token `SET NX EX` lock with a 60-second TTL under which, of two
acquisitions for the same token within the TTL window, exactly the first
succeeds (the second fails and leaves the lock state unchanged) — but
`TradeExecutor.execute` never calls it: the executor performs the swap
unconditionally and duplicate prevention is delegated to the
orchestrator's processed-token check. -/
theorem c2_lock_unused_but_exclusive (locks : LockState) (tokenMint : String)
    (now1 now2 : ℚ) (hfree : locks.lookup tokenMint = none)
    (hsoon : now2 < now1 + LOCK_TTL) :
    LOCK_TTL = 60 ∧
    (acquirePendingTradeLock locks tokenMint now1).1 = true ∧
    (acquirePendingTradeLock
      (acquirePendingTradeLock locks tokenMint now1).2 tokenMint now2).1 = false ∧
    (acquirePendingTradeLock
      (acquirePendingTradeLock locks tokenMint now1).2 tokenMint now2).2 =
      (acquirePendingTradeLock locks tokenMint now1).2 ∧
    (∀ mint swapSuccess,
      ExecEffect.acquireLock mint ∉ (TradeExecutor_execute mint swapSuccess).2) := by
  refine ⟨rfl, ?_, ?_, ?_, ?_⟩
  · simp [acquirePendingTradeLock, hfree]
  · simp [acquirePendingTradeLock, hfree, List.lookup, hsoon]
  · simp [acquirePendingTradeLock, hfree, List.lookup, hsoon]
  · intro mint swapSuccess
    cases swapSuccess <;> simp [TradeExecutor_execute]

/-- Witness for C2's amended theorem: on an empty lock state, the first
acquisition for a token succeeds and a second one 30 seconds later
fails. -/
theorem c2_witness :
    (acquirePendingTradeLock [] "tokenX" 0).1 = true ∧
    (acquirePendingTradeLock
      (acquirePendingTradeLock [] "tokenX" 0).2 "tokenX" 30).1 = false := by
  have h := c2_lock_unused_but_exclusive [] "tokenX" 0 30 rfl
    (by norm_num [LOCK_TTL])
  exact ⟨h.2.1, h.2.2.1⟩

/-! ## C5: prediction retry bookkeeping -/

/-- C5: every non-approved prediction increments the per-token retry
counter, persisted with a 1-hour TTL (`RETRY_TTL = 3600` seconds); the
token joins the `bot:prediction_failed` set (same TTL) exactly when the
new count reaches `MAX_PREDICTION_RETRIES = 3`; while a token is in that
set, `processToken` returns without calling the prediction service; and
after three consecutive rejections (each within the previous counter's
TTL window) the fourth evaluation does not invoke the prediction
service. -/
theorem c5_prediction_retry_exhaustion
    (t1 t2 t3 t4 : ℚ)
    (h12 : t2 < t1 + RETRY_TTL) (h23 : t3 < t2 + RETRY_TTL) (h34 : t4 < t3 + RETRY_TTL)
    (hm fp ap ex : Bool) :
    RETRY_TTL = 3600 ∧ MAX_PREDICTION_RETRIES = 3 ∧
    (∀ s now, (incrementPredictionRetryCount s now).1 = getPredictionRetryCount s now + 1 ∧
      (incrementPredictionRetryCount s now).2.predictionRetry =
        some ((incrementPredictionRetryCount s now).1, now + RETRY_TTL)) ∧
    (∀ s now, (markPredictionFailed s now).predictionFailedUntil = some (now + RETRY_TTL)) ∧
    (∀ s now hm2 fp2 ap2 ex2, isPredictionFailed s now = true →
      processToken s now hm2 fp2 ap2 ex2 = ⟨s, false, false⟩) ∧
    ((processToken {} t1 true true false false).predictionCalled = true ∧
     (processToken {} t1 true true false false).state.predictionRetry = some (1, t1 + RETRY_TTL) ∧
     (processToken (processToken {} t1 true true false false).state
        t2 true true false false).state.predictionRetry = some (2, t2 + RETRY_TTL) ∧
     (processToken (processToken (processToken {} t1 true true false false).state
        t2 true true false false).state t3 true true false false).state.predictionFailedUntil =
          some (t3 + RETRY_TTL) ∧
     (processToken (processToken (processToken (processToken {} t1 true true false false).state
        t2 true true false false).state t3 true true false false).state
          t4 hm fp ap ex).predictionCalled = false) := by
  refine ⟨rfl, rfl, ?_, ?_, ?_, ?_⟩
  · intro s now
    exact ⟨rfl, rfl⟩
  · intro s now
    rfl
  · intro s now hm2 fp2 ap2 ex2 hfail
    unfold processToken
    by_cases hp : isTokenProcessed s now = true
    · simp [hp]
    · simp [hp, hfail]
  · constructor
    · simp [processToken, isTokenProcessed, isPredictionFailed, ttlLive,
        incrementPredictionRetryCount, getPredictionRetryCount, MAX_PREDICTION_RETRIES]
    constructor
    · simp [processToken, isTokenProcessed, isPredictionFailed, ttlLive,
        incrementPredictionRetryCount, getPredictionRetryCount, MAX_PREDICTION_RETRIES]
    constructor
    · simp [processToken, isTokenProcessed, isPredictionFailed, ttlLive,
        incrementPredictionRetryCount, getPredictionRetryCount,
        MAX_PREDICTION_RETRIES, h12]
    constructor
    · simp [processToken, isTokenProcessed, isPredictionFailed, ttlLive,
        incrementPredictionRetryCount, getPredictionRetryCount,
        MAX_PREDICTION_RETRIES, markPredictionFailed, h12, h23]
    · simp [processToken, isTokenProcessed, isPredictionFailed, ttlLive,
        incrementPredictionRetryCount, getPredictionRetryCount,
        MAX_PREDICTION_RETRIES, markPredictionFailed, h12, h23, h34]

/-- Witness for C5: at concrete times 0, 1, 2 and 3 seconds, three
rejections mark the token failed until 2 + 3600 and the fourth
evaluation does not call the prediction service. -/
theorem c5_witness :
    (processToken (processToken (processToken (processToken {} 0 true true false false).state
      1 true true false false).state 2 true true false false).state
        3 true true false false).predictionCalled = false := by
  have h := c5_prediction_retry_exhaustion 0 1 2 3
    (by norm_num [RETRY_TTL]) (by norm_num [RETRY_TTL]) (by norm_num [RETRY_TTL])
    true true false false
  exact h.2.2.2.2.2.2.2.2.2

/-! ## C8 and C9: position store -/

/-- A value just added by `SADD` is a member. -/
theorem mem_setAdd_self (s : List String) (v : String) : v ∈ setAdd s v := by
  by_cases h : v ∈ s <;> simp [setAdd, h]

/-- A value just removed by `SREM` is not a member. -/
theorem not_mem_setRem_self (s : List String) (v : String) : v ∉ setRem s v := by
  simp [setRem]

/-- After `storeTrade`, looking the trade up by its own id returns it. -/
theorem getTrade_storeTrade_self (store : TradeHistoryStore) (t : TradeHistoryEntry) :
    getTrade (storeTrade store t) t.id = some t := by
  cases h : t.status <;> simp [storeTrade, getTrade, h, List.lookup]

/-- A truthy optional number is `some` of its default-0 read. -/
theorem eq_some_getD_of_qTruthy {o : Option ℚ} (h : qTruthy o = true) :
    o = some (o.getD 0) := by
  cases o with
  | none => simp [qTruthy] at h
  | some x => rfl

/-- `applyPriceUpdate` does not change the trade id. -/
theorem applyPriceUpdate_id (t : TradeHistoryEntry) (p now : ℚ) :
    (applyPriceUpdate t p now).id = t.id := by
  simp only [applyPriceUpdate]
  split_ifs <;> rfl

/-- C8: `closeTrade` returns `null` exactly when the id is unknown, and
then leaves the store unchanged; on a known id the returned position is
closed with `closedAt = now`, `exitValue = exitPrice * exitAmount`,
`realizedPnL = exitValue - entryValue` and `realizedPnLPercentage`
derived from `entryValue` (a JS division), and the id is moved from the
open set to the closed set.  The returned status is always `closed`, so
`closeTrade` never returns a position to open status.  `hkeys` is the
store's key discipline (trades are stored under their own id). -/
theorem c8_close_trade (store : TradeHistoryStore) (tradeId : String)
    (exitPrice exitAmount : ℚ) (stx sr : Option String) (now : ℚ)
    (hkeys : ∀ p ∈ store.trades, (p.2).id = p.1) :
    ((closeTrade store tradeId exitPrice exitAmount stx sr now).1 = none ↔
      getTrade store tradeId = none) ∧
    (getTrade store tradeId = none →
      closeTrade store tradeId exitPrice exitAmount stx sr now = (none, store)) ∧
    (∀ t, getTrade store tradeId = some t →
      ∃ t1, (closeTrade store tradeId exitPrice exitAmount stx sr now).1 = some t1 ∧
        t1.status = .closed ∧
        t1.closedAt = some now ∧
        t1.exitPrice = some exitPrice ∧
        t1.exitAmount = some exitAmount ∧
        t1.exitValue = some (exitPrice * exitAmount) ∧
        t1.realizedPnL = some (exitPrice * exitAmount - t.entryValue) ∧
        t1.realizedPnLPercentage =
          some (jsMul100 (jsDiv (exitPrice * exitAmount - t.entryValue) t.entryValue)) ∧
        tradeId ∈ (closeTrade store tradeId exitPrice exitAmount stx sr now).2.closedTrades ∧
        tradeId ∉ (closeTrade store tradeId exitPrice exitAmount stx sr now).2.openTrades) := by
  refine ⟨?_, ?_, ?_⟩
  · unfold closeTrade
    cases h : getTrade store tradeId <;> simp [h]
  · intro h
    unfold closeTrade
    rw [h]
  · intro t h
    have hid : t.id = tradeId := hkeys (tradeId, t) (mem_of_lookup_eq_some h)
    unfold closeTrade
    rw [h]
    refine ⟨_, rfl, rfl, rfl, rfl, rfl, rfl, rfl, rfl, ?_, ?_⟩
    · simp only [storeTrade]
      rw [hid]
      exact mem_setAdd_self _ _
    · simp only [storeTrade]
      rw [hid]
      exact not_mem_setRem_self _ _

/-- Witness for C8: closing the single open trade of `c8store` returns a
closed position and moves the id to the closed set. -/
theorem c8_witness :
    (closeTrade c8store "t8" 3 10 none (some "take profit") 99).1 ≠ none ∧
    "t8" ∈ (closeTrade c8store "t8" 3 10 none (some "take profit") 99).2.closedTrades ∧
    "t8" ∉ (closeTrade c8store "t8" 3 10 none (some "take profit") 99).2.openTrades := by
  have h := c8_close_trade c8store "t8" 3 10 none (some "take profit") 99
    (by intro p hp; simp [c8store] at hp; rw [hp]; rfl)
  obtain ⟨t1, h1, -, -, -, -, -, -, -, hmem, hnot⟩ :=
    h.2.2 c8trade (by rfl)
  exact ⟨by rw [h1]; simp, hmem, hnot⟩

/-- C9 counterexample: the extrema test is the JS falsy check
`!trade.lowestPrice || currentPrice < trade.lowestPrice`, so a stored
`lowestPrice` of `0` is treated as unset: updating the open position
`c9trade` (lowestPrice = 0) with price 3 stores `lowestPrice = 3`,
which is not `min 0 3 = 0` — the lowest price increased. -/
theorem c9_counterexample :
    (getTrade (updateTradePrice c9store "t9" 3 5) "t9").map
      (fun t => t.lowestPrice) = some (some 3) ∧
    c9trade.lowestPrice = some 0 ∧
    min (0 : ℚ) 3 = 0 ∧ some (min (0 : ℚ) 3) ≠ some (3 : ℚ) := by
  refine ⟨?_, rfl, by norm_num, by norm_num⟩
  norm_num [updateTradePrice, applyPriceUpdate, c9store, c9trade, getTrade, qTruthy,
    storeTrade, List.lookup]

/-- C9 amended: `updateTradePrice` leaves the store unchanged when the
position is unknown or not open; on an open position it stores
`applyPriceUpdate`, which sets `currentPrice` and `lastPriceUpdate` and
extends the extrema monotonically whenever the stored extremum is a
truthy (nonzero) value: the new `highestPrice` is `max (old, price)`
and the new `lowestPrice` is `min (old, price)`.  An extremum that is
unset or `0` (falsy in JS) is instead re-initialized to the incoming
price. -/
theorem c9_update_price (store : TradeHistoryStore) (tradeId : String) (p now : ℚ)
    (hkeys : ∀ q ∈ store.trades, (q.2).id = q.1) :
    (getTrade store tradeId = none → updateTradePrice store tradeId p now = store) ∧
    (∀ t, getTrade store tradeId = some t → t.status ≠ .opened →
      updateTradePrice store tradeId p now = store) ∧
    (∀ t, getTrade store tradeId = some t → t.status = .opened →
      getTrade (updateTradePrice store tradeId p now) tradeId =
        some (applyPriceUpdate t p now)) ∧
    (∀ t : TradeHistoryEntry,
      (applyPriceUpdate t p now).currentPrice = some p ∧
      (applyPriceUpdate t p now).lastPriceUpdate = some now ∧
      (qTruthy t.highestPrice = true →
        (applyPriceUpdate t p now).highestPrice = some (max (t.highestPrice.getD 0) p)) ∧
      (qTruthy t.highestPrice = false → (applyPriceUpdate t p now).highestPrice = some p) ∧
      (qTruthy t.lowestPrice = true →
        (applyPriceUpdate t p now).lowestPrice = some (min (t.lowestPrice.getD 0) p)) ∧
      (qTruthy t.lowestPrice = false → (applyPriceUpdate t p now).lowestPrice = some p)) := by
  refine ⟨?_, ?_, ?_, ?_⟩
  · intro h
    unfold updateTradePrice
    rw [h]
  · intro t h hst
    unfold updateTradePrice
    rw [h]
    simp [hst]
  · intro t h hst
    have hid : t.id = tradeId := hkeys (tradeId, t) (mem_of_lookup_eq_some h)
    unfold updateTradePrice
    rw [h]
    simp only [hst, ne_eq, not_true_eq_false, if_false]
    rw [← hid, ← applyPriceUpdate_id t p now]
    exact getTrade_storeTrade_self _ _
  · intro t
    refine ⟨?_, ?_, ?_, ?_, ?_, ?_⟩
    · simp only [applyPriceUpdate]
      split_ifs <;> rfl
    · simp only [applyPriceUpdate]
      split_ifs <;> rfl
    · intro hh
      simp only [applyPriceUpdate]
      split_ifs with h1 h2 h2
      · simp only [hh, Bool.not_true, Bool.false_or, decide_eq_true_eq] at h1
        rw [max_eq_right (le_of_lt h1)]
      · simp only [hh, Bool.not_true, Bool.false_or, decide_eq_true_eq] at h1
        rw [max_eq_right (le_of_lt h1)]
      · simp only [hh, Bool.not_true, Bool.false_or, decide_eq_true_eq] at h1
        rw [max_eq_left (le_of_not_lt h1)]
        exact eq_some_getD_of_qTruthy hh
      · simp only [hh, Bool.not_true, Bool.false_or, decide_eq_true_eq] at h1
        rw [max_eq_left (le_of_not_lt h1)]
        exact eq_some_getD_of_qTruthy hh
    · intro hh
      simp only [applyPriceUpdate]
      split_ifs with h1 h2 h2
      · rfl
      · rfl
      · simp [hh] at h1
      · simp [hh] at h1
    · intro hl
      simp only [applyPriceUpdate]
      split_ifs with h1 h2 h2
      · simp only [hl, Bool.not_true, Bool.false_or, decide_eq_true_eq] at h2
        rw [min_eq_right (le_of_lt h2)]
      · simp only [hl, Bool.not_true, Bool.false_or, decide_eq_true_eq] at h2
        rw [min_eq_left (le_of_not_lt h2)]
        exact eq_some_getD_of_qTruthy hl
      · simp only [hl, Bool.not_true, Bool.false_or, decide_eq_true_eq] at h2
        rw [min_eq_right (le_of_lt h2)]
      · simp only [hl, Bool.not_true, Bool.false_or, decide_eq_true_eq] at h2
        rw [min_eq_left (le_of_not_lt h2)]
        exact eq_some_getD_of_qTruthy hl
    · intro hl
      simp only [applyPriceUpdate]
      split_ifs with h1 h2 h2
      · rfl
      · simp [hl] at h2
      · rfl
      · simp [hl] at h2

/-- Witness for C9's amended theorem: updating the open trade of
`c9store` with price 3 stores exactly `applyPriceUpdate`, which sets
`currentPrice` to the incoming price. -/
theorem c9_witness :
    getTrade (updateTradePrice c9store "t9" 3 5) "t9" =
      some (applyPriceUpdate c9trade 3 5) ∧
    (applyPriceUpdate c9trade 3 5).currentPrice = some 3 := by
  have h := c9_update_price c9store "t9" 3 5
    (by intro q hq; simp [c9store] at hq; rw [hq]; rfl)
  exact ⟨h.2.2.1 c9trade rfl rfl, (h.2.2.2 c9trade).1⟩

/-! ## C3: entryPrice = 0 -/

/-- C3 counterexample: `updateTrailingStopLoss` computes
`(price - entryPrice) / entryPrice * 100` without a zero guard, so for
`entryPrice = 0` and any positive price the JS quotient is `+Infinity`
and the activation test `Infinity >= takeProfitPercentage` succeeds:
the trailing machine transitions from inactive to active. -/
theorem c3_counterexample :
    c3trade.entryPrice = 0 ∧
    c3trade.sellConditions.trailingStopActivated = false ∧
    ((updateTrailingStopLoss c3trade 1).1).sellConditions.trailingStopActivated = true := by
  refine ⟨rfl, rfl, ?_⟩
  norm_num [updateTrailingStopLoss, c3trade, qTruthy, jsPriceChangePercent, jsDiv,
    jsMul100, jsGe]

/-- C3 amended: with `entryPrice = 0` the percentage change used by the
sell-condition checks is indeed defined as 0 (no division occurs), but
the trailing-stop activation test divides by `entryPrice` unguarded:
under IEEE-754 the quotient is `+Infinity` for every positive price, so
with take-profit and trailing configured the machine activates exactly
when the current price is positive (never for price ≤ 0, where the
quotient is NaN or `-Infinity`). -/
theorem c3_entry_zero (trade : TradeHistoryEntry) (p : ℚ)
    (h0 : trade.entryPrice = 0)
    (hact : trade.sellConditions.trailingStopActivated = false)
    (htp : qTruthy trade.sellConditions.takeProfitPercentage = true)
    (htr : qTruthy trade.sellConditions.trailingStopPercentage = true) :
    (∀ cur : ℚ, priceChangePercentGuarded 0 cur = 0) ∧
    (((updateTrailingStopLoss trade p).1).sellConditions.trailingStopActivated = true ↔
      0 < p) := by
  constructor
  · intro cur
    simp [priceChangePercentGuarded]
  · unfold updateTrailingStopLoss
    rcases lt_trichotomy 0 p with hp | hp | hp
    · simp [htp, htr, hact, h0, jsPriceChangePercent, jsDiv, jsMul100, jsGe,
        sub_zero, hp]
    · simp [htp, htr, hact, h0, jsPriceChangePercent, jsDiv, jsMul100, jsGe,
        sub_zero, ← hp]
      split_ifs <;> simp [hact]
    · simp [htp, htr, hact, h0, jsPriceChangePercent, jsDiv, jsMul100, jsGe,
        sub_zero, hp, not_lt.2 (le_of_lt hp), ne_of_lt hp]
      split_ifs <;> simp [hact]

/-- Witness for C3's amended theorem: on the concrete entry-0 position
`c3trade` with price 2 the machine activates (and 0 < 2). -/
theorem c3_witness :
    ((updateTrailingStopLoss c3trade 2).1).sellConditions.trailingStopActivated = true ∧
    priceChangePercentGuarded 0 7 = 0 := by
  have h := c3_entry_zero c3trade 2 rfl rfl (by decide) (by decide)
  exact ⟨h.2.mpr (by norm_num), h.1 7⟩



/-! ## Characterization of the trailing-stop machine (shared by C1, C10) -/

/-- `updateTrailingStopLoss` never resets `trailingStopActivated` once
it is set. -/
theorem updateTrailingStopLoss_never_deactivates (t : TradeHistoryEntry) (q : ℚ)
    (h : t.sellConditions.trailingStopActivated = true) :
    ((updateTrailingStopLoss t q).1).sellConditions.trailingStopActivated = true := by
  simp only [updateTrailingStopLoss]
  split_ifs <;> simp [h]

/-- Behaviour of `updateTrailingStopLoss` with the machine already
active: if the price has reached the next target, the step level
increments (from `stepLevel || 1`) and stop/target are recomputed from
the current price; otherwise the sell conditions are untouched.  The
reported `activated` flag is true in both cases. -/
theorem updateTrailingStopLoss_active (trade : TradeHistoryEntry) (p tp trail nt : ℚ)
    (htp : trade.sellConditions.takeProfitPercentage = some tp) (htp0 : tp ≠ 0)
    (htr : trade.sellConditions.trailingStopPercentage = some trail) (htr0 : trail ≠ 0)
    (hact : trade.sellConditions.trailingStopActivated = true)
    (hnext : trade.sellConditions.nextTargetPrice = some nt) (hnt : nt ≠ 0) :
    (nt ≤ p →
      ((updateTrailingStopLoss trade p).1).sellConditions =
        { trade.sellConditions with
            stepLevel := some ((if qTruthy trade.sellConditions.stepLevel then
              trade.sellConditions.stepLevel.getD 0 else 1) + 1)
            currStopPrice := some (p * (1 - trail / 100))
            nextTargetPrice := some (p * (1 + tp / 100)) }) ∧
    (¬ nt ≤ p → ((updateTrailingStopLoss trade p).1).sellConditions = trade.sellConditions) ∧
    (updateTrailingStopLoss trade p).2.1 = true := by
  have hq1 : qTruthy (some tp) = true := by simp [qTruthy, htp0]
  have hq2 : qTruthy (some trail) = true := by simp [qTruthy, htr0]
  have hq3 : qTruthy (some nt) = true := by simp [qTruthy, hnt]
  refine ⟨?_, ?_, ?_⟩
  · intro hle
    simp only [updateTrailingStopLoss, htp, htr, hact, hnext, hq1, hq2, hq3,
      Bool.and_self, if_true, Bool.not_true, Bool.false_eq_true, if_false,
      Option.getD_some, if_pos hle]
  · intro hgt
    simp only [updateTrailingStopLoss, htp, htr, hact, hnext, hq1, hq2, hq3,
      Bool.and_self, if_true, Bool.not_true, Bool.false_eq_true, if_false,
      Option.getD_some, if_neg hgt]
    split_ifs <;> rfl
  · simp only [updateTrailingStopLoss, htp, htr, hact, hnext, hq1, hq2, hq3,
      Bool.and_self, if_true, Bool.not_true, Bool.false_eq_true, if_false,
      Option.getD_some]
    split_ifs <;> rfl

/-- Behaviour of `updateTrailingStopLoss` with the machine inactive and
a nonzero entry price: it activates at step 1 with stop and target
derived from the current price exactly when the percentage gain reaches
the take-profit threshold, and otherwise leaves the sell conditions
untouched. -/
theorem updateTrailingStopLoss_inactive (trade : TradeHistoryEntry) (p tp trail : ℚ)
    (htp : trade.sellConditions.takeProfitPercentage = some tp) (htp0 : tp ≠ 0)
    (htr : trade.sellConditions.trailingStopPercentage = some trail) (htr0 : trail ≠ 0)
    (hact : trade.sellConditions.trailingStopActivated = false)
    (he : trade.entryPrice ≠ 0) :
    (tp ≤ (p - trade.entryPrice) / trade.entryPrice * 100 →
      ((updateTrailingStopLoss trade p).1).sellConditions =
        { trade.sellConditions with
            trailingStopActivated := true
            stepLevel := some 1
            currStopPrice := some (p * (1 - trail / 100))
            nextTargetPrice := some (p * (1 + tp / 100)) }) ∧
    ((p - trade.entryPrice) / trade.entryPrice * 100 < tp →
      ((updateTrailingStopLoss trade p).1).sellConditions = trade.sellConditions) := by
  have hq1 : qTruthy (some tp) = true := by simp [qTruthy, htp0]
  have hq2 : qTruthy (some trail) = true := by simp [qTruthy, htr0]
  have hfin : jsPriceChangePercent trade.entryPrice p =
      .fin ((p - trade.entryPrice) / trade.entryPrice * 100) :=
    jsPriceChangePercent_of_ne _ _ he
  constructor
  · intro hge
    simp only [updateTrailingStopLoss, htp, htr, hact, hq1, hq2, Bool.and_self,
      if_true, Bool.not_false, hfin, jsGe, Option.getD_some, decide_eq_true hge,
      if_true]
  · intro hlt
    have hn : ¬ tp ≤ (p - trade.entryPrice) / trade.entryPrice * 100 := not_le.2 hlt
    simp only [updateTrailingStopLoss, htp, htr, hact, hq1, hq2, Bool.and_self,
      if_true, Bool.not_false, hfin, jsGe, Option.getD_some, decide_eq_false hn,
      Bool.false_eq_true, if_false]
    split_ifs <;> rfl

/-! ## C10: ratchet monotonicity -/

/-- C10: once the stepped trailing stop has been activated (state shape
as established by activation: stop and target derived from a positive
base price `b`, `0 < trailingStopPercentage < 100`, positive take
profit, positive step level), every further `updateTrailingStopLoss`
call still reports the stop active and either leaves `stepLevel`,
`currStopPrice` and `nextTargetPrice` all unchanged or strictly
increases all three together; and `trailingStopActivated` is never
reset to false by any update once set, so the watcher never deactivates
the trailing stop and the active stop price never moves downward. -/
theorem c10_ratchet_monotone (trade : TradeHistoryEntry) (p tp trail b k : ℚ)
    (htp : trade.sellConditions.takeProfitPercentage = some tp) (htp0 : 0 < tp)
    (htr : trade.sellConditions.trailingStopPercentage = some trail)
    (htr0 : 0 < trail) (htr100 : trail < 100)
    (hact : trade.sellConditions.trailingStopActivated = true)
    (hcurr : trade.sellConditions.currStopPrice = some (b * (1 - trail / 100)))
    (hnext : trade.sellConditions.nextTargetPrice = some (b * (1 + tp / 100)))
    (hb : 0 < b)
    (hstep : trade.sellConditions.stepLevel = some k) (hk : 0 < k) :
    (∀ (t : TradeHistoryEntry) (q : ℚ), t.sellConditions.trailingStopActivated = true →
      ((updateTrailingStopLoss t q).1).sellConditions.trailingStopActivated = true) ∧
    (updateTrailingStopLoss trade p).2.1 = true ∧
    (((updateTrailingStopLoss trade p).1).sellConditions = trade.sellConditions ∨
      (((updateTrailingStopLoss trade p).1).sellConditions.stepLevel = some (k + 1) ∧
       ((updateTrailingStopLoss trade p).1).sellConditions.currStopPrice =
         some (p * (1 - trail / 100)) ∧
       ((updateTrailingStopLoss trade p).1).sellConditions.nextTargetPrice =
         some (p * (1 + tp / 100)) ∧
       k < k + 1 ∧
       b * (1 - trail / 100) < p * (1 - trail / 100) ∧
       b * (1 + tp / 100) < p * (1 + tp / 100) ∧
       0 < p)) := by
  have htpq : (0:ℚ) < tp / 100 := div_pos htp0 (by norm_num)
  have hfac : (0:ℚ) < 1 + tp / 100 := by linarith
  have hfac2 : (0:ℚ) < 1 - trail / 100 := by
    have : trail / 100 < 1 := by
      rw [div_lt_one (by norm_num : (0:ℚ) < 100)]
      exact htr100
    linarith
  have hntpos : 0 < b * (1 + tp / 100) := mul_pos hb hfac
  have hchar := updateTrailingStopLoss_active trade p tp trail (b * (1 + tp / 100))
    htp (ne_of_gt htp0) htr (ne_of_gt htr0) hact hnext (ne_of_gt hntpos)
  refine ⟨fun t q h => updateTrailingStopLoss_never_deactivates t q h, hchar.2.2, ?_⟩
  rcases le_or_lt (b * (1 + tp / 100)) p with hle | hlt
  · have hbp : b < p := by
      have h1 : b * 1 < b * (1 + tp / 100) :=
        mul_lt_mul_of_pos_left (by linarith) hb
      rw [mul_one] at h1
      exact lt_of_lt_of_le h1 hle
    right
    have hres := hchar.1 hle
    have hql : qTruthy trade.sellConditions.stepLevel = true := by
      simp [hstep, qTruthy, ne_of_gt hk]
    rw [hres]
    refine ⟨?_, rfl, rfl, by linarith, ?_, ?_, by linarith⟩
    · simp [hstep, qTruthy, ne_of_gt hk]
    · exact mul_lt_mul_of_pos_right hbp hfac2
    · exact mul_lt_mul_of_pos_right hbp hfac
  · left
    exact hchar.2.1 (not_le.2 hlt)

/-- Witness for C10: the concrete activated state reached by S1 after
the 230 tick (base 230, step 2) is only ratcheted upward: at price 200
it is unchanged, and the activated flag survives. -/
theorem c10_witness :
    (updateTrailingStopLoss c1t4 200).2.1 = true ∧
    ((updateTrailingStopLoss c1t4 200).1).sellConditions = c1t4.sellConditions := by
  have h4 : c1t4.sellConditions =
      { takeProfitPercentage := some 50, trailingStopPercentage := some 10
        trailingStopActivated := true, stepLevel := some 2
        currStopPrice := some 207, nextTargetPrice := some 345 } := by
    norm_num [c1t4, c1t3, c1t2, c1t1, c1trade0, updateTrailingStopLoss, qTruthy,
      jsPriceChangePercent, jsDiv, jsMul100, jsGe]
  have h := c10_ratchet_monotone c1t4 200 50 10 230 2
    (by rw [h4]) (by norm_num) (by rw [h4]) (by norm_num) (by norm_num)
    (by rw [h4]) (by rw [h4]; norm_num) (by rw [h4]; norm_num) (by norm_num)
    (by rw [h4]) (by norm_num)
  rcases h.2.2 with hsame | hstep
  · exact ⟨h.2.1, hsame⟩
  · exfalso
    have := hstep.2.2.2.2.2.2
    have h345 : ¬ ((230:ℚ) * (1 + 50 / 100) ≤ 200) := by norm_num
    rcases hstep with ⟨-, -, -, -, -, hlt, -⟩
    norm_num at hlt

/-! ## C1: stepped trailing-stop machine -/

/-- C1 counterexample: with a stop loss also configured, the stop-loss
branch of `checkSellConditions` runs before the stepped-stop branch, so
at price 70 the trade `c1badTrade` (active, `currStopPrice = 135`,
stop loss 20 %) exits with reason stop loss, not stepped stop, even
though trailing is active and `70 ≤ 135`: the reason 'stepped stop' does
not fire "exactly when trailing is active and price ≤ currStopPrice". -/
theorem c1_counterexample :
    c1badTrade.sellConditions.trailingStopActivated = true ∧
    c1badTrade.sellConditions.currStopPrice = some 135 ∧
    (70 : ℚ) ≤ 135 ∧
    checkSellConditions c1badTrade 70 0 = some .stopLoss ∧
    checkSellConditions c1badTrade 70 0 ≠ some .steppedStop := by
  refine ⟨rfl, rfl, by norm_num, ?_, ?_⟩
  · norm_num [checkSellConditions, c1badTrade, qTruthy, priceChangePercentGuarded]
  · norm_num [checkSellConditions, c1badTrade, qTruthy, priceChangePercentGuarded]
    decide

/-- C1 amended: for a position with take profit and trailing stop
configured (both positive) the machine behaves as claimed — while
inactive with positive entry price, it activates at step 1 with
`currStopPrice = price·(1 − trailingStopPct/100)` and
`nextTargetPrice = price·(1 + takeProfitPct/100)` exactly when
`(price − entry)/entry·100 ≥ takeProfitPct`; while active, when
`price ≥ nextTargetPrice` the step level increments and both prices are
recomputed by the same formulas, and otherwise they are unchanged — and
an exit with reason 'stepped stop' fires exactly when trailing is
active, `currStopPrice` is nonzero, `price ≤ currStopPrice`, AND
neither the max-hold nor the stop-loss condition fires (those branches
take precedence).  The S1 scenario follows: after 140 inactive, after
150 active at step 1 with stop 135 / target 225, after 200 still step
1, after 230 step 2 with stop 207 / target 345, and the final 200
triggers the stepped stop. -/
theorem c1_stepped_trailing_machine :
    (∀ (trade : TradeHistoryEntry) (p tp trail : ℚ),
      trade.sellConditions.takeProfitPercentage = some tp → 0 < tp →
      trade.sellConditions.trailingStopPercentage = some trail → 0 < trail →
      trade.sellConditions.trailingStopActivated = false →
      0 < trade.entryPrice →
      ((tp ≤ (p - trade.entryPrice) / trade.entryPrice * 100 →
        ((updateTrailingStopLoss trade p).1).sellConditions =
          { trade.sellConditions with
              trailingStopActivated := true
              stepLevel := some 1
              currStopPrice := some (p * (1 - trail / 100))
              nextTargetPrice := some (p * (1 + tp / 100)) }) ∧
       ((p - trade.entryPrice) / trade.entryPrice * 100 < tp →
        ((updateTrailingStopLoss trade p).1).sellConditions = trade.sellConditions))) ∧
    (∀ (trade : TradeHistoryEntry) (p tp trail nt k : ℚ),
      trade.sellConditions.takeProfitPercentage = some tp → 0 < tp →
      trade.sellConditions.trailingStopPercentage = some trail → 0 < trail →
      trade.sellConditions.trailingStopActivated = true →
      trade.sellConditions.nextTargetPrice = some nt → 0 < nt →
      trade.sellConditions.stepLevel = some k → 0 < k →
      ((nt ≤ p →
        ((updateTrailingStopLoss trade p).1).sellConditions =
          { trade.sellConditions with
              stepLevel := some (k + 1)
              currStopPrice := some (p * (1 - trail / 100))
              nextTargetPrice := some (p * (1 + tp / 100)) }) ∧
       (p < nt →
        ((updateTrailingStopLoss trade p).1).sellConditions = trade.sellConditions))) ∧
    (∀ (trade : TradeHistoryEntry) (p now tp trail : ℚ),
      trade.sellConditions.takeProfitPercentage = some tp → tp ≠ 0 →
      trade.sellConditions.trailingStopPercentage = some trail → trail ≠ 0 →
      (checkSellConditions trade p now = some .steppedStop ↔
        (trade.sellConditions.trailingStopActivated = true ∧
         qTruthy trade.sellConditions.currStopPrice = true ∧
         p ≤ trade.sellConditions.currStopPrice.getD 0 ∧
         (qTruthy trade.sellConditions.maxHoldTimeMinutes &&
           decide (trade.sellConditions.maxHoldTimeMinutes.getD 0 ≤
             (now - trade.openedAt) / 60000)) = false ∧
         (qTruthy trade.sellConditions.stopLossPercentage &&
           decide (priceChangePercentGuarded trade.entryPrice p ≤
             -(trade.sellConditions.stopLossPercentage.getD 0))) = false))) ∧
    (c1t1.sellConditions.trailingStopActivated = false ∧
     c1t2.sellConditions.trailingStopActivated = true ∧
     c1t2.sellConditions.stepLevel = some 1 ∧
     c1t2.sellConditions.currStopPrice = some 135 ∧
     c1t2.sellConditions.nextTargetPrice = some 225 ∧
     c1t3.sellConditions.stepLevel = some 1 ∧
     c1t4.sellConditions.stepLevel = some 2 ∧
     c1t4.sellConditions.currStopPrice = some 207 ∧
     c1t4.sellConditions.nextTargetPrice = some 345 ∧
     checkSellConditions c1t5 200 1 = some .steppedStop) := by
  refine ⟨?_, ?_, ?_, ?_⟩
  · intro trade p tp trail htp htp0 htr htr0 hact he
    have h := updateTrailingStopLoss_inactive trade p tp trail htp (ne_of_gt htp0)
      htr (ne_of_gt htr0) hact (ne_of_gt he)
    exact ⟨h.1, h.2⟩
  · intro trade p tp trail nt k htp htp0 htr htr0 hact hnext hnt hstep hk
    have h := updateTrailingStopLoss_active trade p tp trail nt htp (ne_of_gt htp0)
      htr (ne_of_gt htr0) hact hnext (ne_of_gt hnt)
    constructor
    · intro hle
      rw [h.1 hle, hstep]
      simp [qTruthy, ne_of_gt hk]
    · intro hlt
      exact h.2.1 (not_le.2 hlt)
  · intro trade p now tp trail htp htp0 htr htr0
    have hq1 : qTruthy trade.sellConditions.takeProfitPercentage = true := by
      simp [htp, qTruthy, htp0]
    have hq2 : qTruthy trade.sellConditions.trailingStopPercentage = true := by
      simp [htr, qTruthy, htr0]
    simp only [checkSellConditions, hq2, Bool.not_true, Bool.and_false, Bool.false_and,
      Bool.false_eq_true, if_false]
    by_cases hA : (qTruthy trade.sellConditions.maxHoldTimeMinutes &&
        decide (trade.sellConditions.maxHoldTimeMinutes.getD 0 ≤
          (now - trade.openedAt) / 60000)) = true
    · simp [hA]
    · have hA' := eq_false_of_ne_true hA
      simp only [hA', Bool.false_eq_true, if_false]
      by_cases hB : (qTruthy trade.sellConditions.stopLossPercentage &&
          decide (priceChangePercentGuarded trade.entryPrice p ≤
            -(trade.sellConditions.stopLossPercentage.getD 0))) = true
      · simp [hB]
      · have hB' := eq_false_of_ne_true hB
        simp only [hB', Bool.false_eq_true, if_false]
        by_cases hD : (trade.sellConditions.trailingStopActivated &&
            qTruthy trade.sellConditions.currStopPrice) = true
        · have hDD := hD
          rw [Bool.and_eq_true] at hDD
          rcases hDD with ⟨hD1, hD2⟩
          simp only [hD1, hD2, Bool.and_self, if_true]
          by_cases hP : p ≤ trade.sellConditions.currStopPrice.getD 0
          · simp [hP, hD1, hD2, hA', hB']
          · simp [hP, hD1, hD2]
        · have hD' := eq_false_of_ne_true hD
          simp only [hD', Bool.false_eq_true, if_false, hq1, Bool.true_and]
          rw [Bool.and_eq_false_iff] at hD'
          constructor
          · intro hcon
            exfalso
            split at hcon <;> simp_all
          · intro hcon
            rcases hD' with h | h <;> simp_all
  · refine ⟨?_, ?_, ?_, ?_, ?_, ?_, ?_, ?_, ?_, ?_⟩ <;>
        norm_num [c1t5, c1t4, c1t3, c1t2, c1t1, c1trade0, updateTrailingStopLoss,
          checkSellConditions, priceChangePercentGuarded, qTruthy,
          jsPriceChangePercent, jsDiv, jsMul100, jsGe]

/-- Witness for C1's amended theorem: activating the S1 position at
price 150 yields step 1 with stop `150·0.9` and target `150·1.5`. -/
theorem c1_witness :
    ((updateTrailingStopLoss c1trade0 150).1).sellConditions =
      { takeProfitPercentage := some 50, trailingStopPercentage := some 10
        trailingStopActivated := true, stepLevel := some 1
        currStopPrice := some (150 * (1 - 10 / 100))
        nextTargetPrice := some (150 * (1 + 50 / 100)) } := by
  have h := (c1_stepped_trailing_machine.1 c1trade0 150 50 10 rfl (by norm_num) rfl
    (by norm_num) rfl (by norm_num [c1trade0])).1 (by norm_num [c1trade0])
  rw [h]
  rfl

/-! ## C7: filter signal override -/

/-- Off the native-SOL branch, the signals of the filter result are the
computed signals. -/
theorem evaluate_signals_eq (criteria : FilterCriteria) (data : MindmapData)
    (now : ℚ) (onchainOk : Bool) (hnat : data.tokenMint ≠ NATIVE_SOL_ADDRESS) :
    (MindmapFilterEngine_evaluate criteria data now onchainOk).signals =
      computeSignals criteria data now := by
  simp only [MindmapFilterEngine_evaluate, if_neg hnat]
  split_ifs <;> rfl

/-- C7: if at least one signal is emitted, the evaluation result is
invariant under arbitrary changes of the `minTradeVolume`,
`minConnectedKOLs` and `minTotalTrades` thresholds (they are skipped);
with no signal, the evaluation rejects whenever any of the three
thresholds is not met; in all cases the result is rejected when the
average influence is below `minInfluenceScore`; and the S4 snapshot
(5 actors at `now`, influence 60, volume 100 each, thresholds
10000/5/50 with `minViralVelocity = 5`) emits VIRAL_SPIKE and passes
despite its total volume of 500. -/
theorem c7_filter_signal_override :
    (∀ (criteria : FilterCriteria) (data : MindmapData) (now : ℚ) (onchainOk : Bool)
      (q1 q2 q3 : ℚ),
      (MindmapFilterEngine_evaluate criteria data now onchainOk).signals ≠ [] →
      MindmapFilterEngine_evaluate
        { criteria with minTradeVolume := q1, minConnectedKOLs := q2, minTotalTrades := q3 }
        data now onchainOk =
        MindmapFilterEngine_evaluate criteria data now onchainOk) ∧
    (∀ (criteria : FilterCriteria) (data : MindmapData) (now : ℚ) (onchainOk : Bool),
      (MindmapFilterEngine_evaluate criteria data now onchainOk).signals = [] →
      data.tokenMint ≠ NATIVE_SOL_ADDRESS →
      (calculateTotalVolume data < criteria.minTradeVolume ∨
       (countConnectedKOLs data : ℚ) < criteria.minConnectedKOLs ∨
       data.networkMetrics.totalTrades < criteria.minTotalTrades) →
      (MindmapFilterEngine_evaluate criteria data now onchainOk).passed = false) ∧
    (∀ (criteria : FilterCriteria) (data : MindmapData) (now : ℚ) (onchainOk : Bool),
      calculateAvgInfluenceScore data < criteria.minInfluenceScore →
      (MindmapFilterEngine_evaluate criteria data now onchainOk).passed = false) ∧
    MindmapFilterEngine_evaluate c7criteria (c7data 100000) 100000 true =
      { passed := true, reason := none, signals := ["VIRAL_SPIKE"] } := by
  refine ⟨?_, ?_, ?_, ?_⟩
  · intro criteria data now onchainOk q1 q2 q3 hsig
    by_cases hnat : data.tokenMint = NATIVE_SOL_ADDRESS
    · simp [MindmapFilterEngine_evaluate, hnat] at hsig
    · rw [evaluate_signals_eq criteria data now onchainOk hnat] at hsig
      have hcs : computeSignals
          { criteria with minTradeVolume := q1, minConnectedKOLs := q2, minTotalTrades := q3 }
          data now = computeSignals criteria data now := rfl
      have hemp : (computeSignals criteria data now).isEmpty = false := by
        cases h : computeSignals criteria data now
        · exact absurd h hsig
        · rfl
      simp only [MindmapFilterEngine_evaluate, if_neg hnat, hcs, hemp, Bool.not_false,
        Bool.not_true, Bool.false_and, Bool.false_eq_true, if_false]
  · intro criteria data now onchainOk hsig hnat hviol
    rw [evaluate_signals_eq criteria data now onchainOk hnat] at hsig
    have hemp : (computeSignals criteria data now).isEmpty = true := by
      rw [hsig]
      rfl
    simp only [MindmapFilterEngine_evaluate, if_neg hnat, hemp, Bool.not_true]
    rcases hviol with h | h | h <;> split_ifs <;> simp_all
  · intro criteria data now onchainOk hinf
    by_cases hnat : data.tokenMint = NATIVE_SOL_ADDRESS
    · simp [MindmapFilterEngine_evaluate, hnat]
    · simp only [MindmapFilterEngine_evaluate, if_neg hnat]
      split_ifs <;> simp_all
  · norm_num [MindmapFilterEngine_evaluate, computeSignals, calculateTotalVolume,
      countConnectedKOLs, calculateAvgInfluenceScore, calculateViralVelocity,
      calculateWeightedVolume, calculateConsensus, c7criteria, c7data, c7kol,
      qTruthy, jsGtZero, NATIVE_SOL_ADDRESS]
    decide

/-- Witness for C7: a snapshot with a single zero-influence actor is
rejected under an influence floor of 50 (influence-floor conjunct
applied at a concrete input). -/
theorem c7_witness :
    (MindmapFilterEngine_evaluate c7criteria
      { tokenMint := "mintW"
        kolConnections := [("k1",
          { kolWallet := "k1", tradeCount := 1, totalVolume := 100
            lastTradeTime := 0, influenceScore := 0, tradeTypes := ["buy"] })]
        networkMetrics := { centrality := 0, clustering := 0, totalTrades := 1 } }
      0 true).passed = false := by
  exact c7_filter_signal_override.2.2.1 c7criteria _ 0 true
    (by norm_num [calculateAvgInfluenceScore, c7criteria])
